import Mathlib

/-!
Verification development for the Linode salt-cloud driver
(src/salt/cloud/clouds/linode.py).

The Python source is shallowly embedded: each definition below mirrors one
function (or a contiguous fragment) of the source file, with the source
location given in its doc comment.  Remote I/O is made explicit: the
response data a function would read over the wire is passed in as an
environment value, and the remote calls a function issues are collected in
an ordered trace list.  Python exceptions become an explicit error type
threaded through Except; a Python function that can spin forever in a
polling loop is given a fuel parameter, with result none meaning that the
loop has not terminated within that much fuel.
-/

deriving instance DecidableEq for Except

namespace LinodeCloud

/-- Exceptions (and exception-like outcomes) raised by the driver.  The
structured constructors keep the data that the source interpolates into the
corresponding message strings, so that theorems can talk about what an
error names.  Source messages are noted at each constructor. -/
inductive PyErr where
  /-- SaltCloudException with a free-form message. -/
  | saltCloudException (msg : String)
  /-- SaltCloudSystemExit with a free-form message. -/
  | saltCloudSystemExit (msg : String)
  /-- SaltCloudNotFound: the specified name could not be found (source line 830). -/
  | notFound (name : String)
  /-- SaltCloudSystemExit raised when a function requires one of two
  parameters and got neither (source lines 326, 474). -/
  | requiresEitherOf (a b : String)
  /-- SaltCloudSystemExit raised by create_config when a required parameter
  is missing (source lines 482-485). -/
  | requiresParams (ps : List String)
  /-- SaltCloudException: timed out while waiting for (entity) (identifier)
  to reach status (status) (source lines 926-928). -/
  | pollTimeout (entity identifier status : String)
  /-- SaltCloudException: Insufficient space available for type (ty) (capacity)
  (source lines 579-581). -/
  | insufficientSpace (ty : Option String) (capacity : Int)
  /-- SaltCloudException: Disk must be allocated for the root disk partition
  (source lines 584-586). -/
  | rootDiskUnallocated
  /-- Python TypeError (for example, a keyword argument the callee does not
  accept). -/
  | typeError (msg : String)
  /-- Python IndexError: list index out of range. -/
  | indexError
  /-- Python AttributeError (attribute access on None). -/
  | attributeError (msg : String)
  deriving DecidableEq

/-- Remote calls issued by the v4 driver, in the order the source issues
them.  GET lookups and event emissions are recorded alongside the
state-changing POST calls; the predicate stateChanging below separates
them. -/
inductive Call where
  /-- fire_event emission with the given phase tag (not a transport call). -/
  | fireEvent (phase : String)
  /-- GET /linode/instances (full listing, used by name lookups). -/
  | getInstances
  /-- GET /linode/instances/(id). -/
  | getInstance (id : Nat)
  /-- GET /linode/types/(t). -/
  | getTypeInfo (t : Option String)
  /-- GET /linode/instance/(linode)/disk/(disk) (disk status probe). -/
  | getDisk (linode disk : Nat)
  /-- POST /linode/instances/(id)/clone. -/
  | postClone (id : Nat) (region ty : String)
  /-- POST /networking/ips (private address allocation). -/
  | postPrivateIp (id : Nat)
  /-- POST /linode/instances; the flag records whether the request asked the
  provider for implicit disk provisioning (booted with image/password). -/
  | postCreateInstance (implicitDisk : Bool)
  /-- POST /linode/instance/(id)/disks. -/
  | postCreateDisk (id : Nat) (size : Int) (filesystem : String)
      (image : Option String) (authorizedKeys : Option (List String))
      (rootPass : Option String)
  /-- POST /linode/instances/(id)/configs. -/
  | postCreateConfig (id : Nat)
  /-- POST /linode/instances/(id)/boot. -/
  | postBoot (id : Nat)
  /-- POST /linode/instances/(id)/shutdown. -/
  | postShutdown (id : Nat)
  deriving DecidableEq

/-- Whether a recorded call changes remote state (the POST calls). -/
def stateChanging : Call → Bool
  | .fireEvent _ => false
  | .getInstances => false
  | .getInstance _ => false
  | .getTypeInfo _ => false
  | .getDisk _ _ => false
  | .postClone _ _ _ => true
  | .postPrivateIp _ => true
  | .postCreateInstance _ => true
  | .postCreateDisk _ _ _ _ _ _ => true
  | .postCreateConfig _ => true
  | .postBoot _ => true
  | .postShutdown _ => true

/-- CPython identity comparison between a string value and an interned
string literal, as used by the source (ssh_interface is private_ips, line
522; method is not DELETE, line 359).  Two equal literals are the same
interned object; two different strings are never the same object, so the
comparison is modelled as equality.  (For an equal string built at run
time, CPython identity may also be False; no theorem below depends on the
case where the two notions differ.) -/
def pyStrIs (a b : String) : Bool := a == b

/-- Join a list of messages with a comma separator, as the source does with
a comma join on error lists (lines 377, 1023). -/
def joinComma (msgs : List String) : String := String.intercalate ", " msgs

/-! ## Name validation (source lines 2462-2489, function validate_name) -/

/-- Character class of the regex tail [A-Za-z0-9_-]. -/
def isNameChar (c : Char) : Bool := c.isAlphanum || c = '_' || c = '-'

/-- Matcher for the tail of the source regex: a possibly empty run of
[A-Za-z0-9_-] followed by a final [a-zA-Z0-9]. -/
def nameRegexTail : List Char → Bool
  | [] => false
  | [c] => c.isAlphanum
  | c :: cs => isNameChar c && nameRegexTail cs

/-- Matcher for the body of the source regex at line 2473 against an exact
character list: a leading alphanumeric, a run of [A-Za-z0-9_-], a final
alphanumeric, consuming the whole list.  The Python dollar-anchor
semantics of the source match is layered on top in nameRegexPyMatch. -/
def nameRegexMatch : List Char → Bool
  | [] => false
  | c :: cs => c.isAlphanum && nameRegexTail cs

/-- The Python re.match of the source regex at line 2473: the caret
anchors at the start of the string, and the dollar matches at the end of
the string and also just before a newline that terminates the string, so
the match succeeds on the exact character list and also on a list with one
trailing newline after the final alphanumeric. -/
def nameRegexPyMatch (cs : List Char) : Bool :=
  nameRegexMatch cs || (cs.getLast? = some '\n' && nameRegexMatch cs.dropLast)

/-- The name validator at source lines 2462-2489: a name of length below 3
or above 48 is rejected (the length counts every character, a trailing
newline included), then the regex is matched with Python dollar-anchor
semantics, and the result is returned as a boolean (the warning log is
omitted). -/
def validate_name (name : String) : Bool :=
  let cs := name.data
  if cs.length < 3 || cs.length > 48 then false
  else nameRegexPyMatch cs

/-- Modelled from the spec words of the claim: length between 3 and 48 and
a whole-string match of the regex, the dollar read as strict end of string
(the claim quotes the same character classes the source compiles, so the
source body matcher is reused for the regex part). -/
def specNameRules (name : String) : Bool :=
  decide (3 ≤ name.data.length ∧ name.data.length ≤ 48) && nameRegexMatch name.data

/-- Modelled from the spec words of the claim as amended: the same length
bounds, with the regex match taken under Python dollar-anchor semantics
(also accepting one trailing newline after the final alphanumeric). -/
def specNameRulesPy (name : String) : Bool :=
  decide (3 ≤ name.data.length ∧ name.data.length ≤ 48) && nameRegexPyMatch name.data

/-! ## Status vocabulary (source lines 87-95 and 1952-1962) -/

/-- One entry of the LINODE_STATUS table. -/
structure StatusEntry where
  name : String
  code : Int
  descr : String
  deriving DecidableEq

/-- The LINODE_STATUS table at source lines 87-95, in source order. -/
def LINODE_STATUS : List StatusEntry :=
  [ ⟨"boot_failed", -2, "Boot Failed (not in use)"⟩,
    ⟨"beeing_created", -1, "Being Created"⟩,
    ⟨"brand_new", 0, "Brand New"⟩,
    ⟨"running", 1, "Running"⟩,
    ⟨"poweroff", 2, "Powered Off"⟩,
    ⟨"shutdown", 3, "Shutting Down (not in use)"⟩,
    ⟨"save_to_disk", 4, "Saved to Disk (not in use)"⟩ ]

/-- The v3 status mapping at source lines 1952-1962: scan the table for an
entry whose code equals the id and return its description.  When no entry
matches, the source falls back to a dictionary get keyed by the id; the
dictionary keys are the status names (strings), so for an integer id that
fallback always yields None, modelled as none. -/
def get_status_descr_by_id (status_id : Int) : Option String :=
  match LINODE_STATUS.find? (fun e => e.code = status_id) with
  | some e => some e.descr
  | none => none

/-! ## Address classification (source lines 864-875 for v4, 1653-1690 for v3) -/

/-- An IPv4 address as four octets. -/
structure Ip where
  a : Nat
  b : Nat
  c : Nat
  d : Nat
  deriving DecidableEq

/-- The is_private test of the CPython ipaddress module applied by the v4
source at line 870: membership in any of the private networks 0.0.0.0/8,
10.0.0.0/8, 127.0.0.0/8, 169.254.0.0/16, 172.16.0.0/12, 192.0.0.0/29,
192.0.0.170/31, 192.0.2.0/24, 192.168.0.0/16, 198.18.0.0/15,
198.51.100.0/24, 203.0.113.0/24, 240.0.0.0/4, 255.255.255.255/32. -/
def is_private (ip : Ip) : Bool :=
  decide (ip.a = 0 ∨ ip.a = 10 ∨ ip.a = 127
    ∨ (ip.a = 169 ∧ ip.b = 254)
    ∨ (ip.a = 172 ∧ 16 ≤ ip.b ∧ ip.b ≤ 31)
    ∨ (ip.a = 192 ∧ ip.b = 0 ∧ ip.c = 0 ∧ ip.d ≤ 7)
    ∨ (ip.a = 192 ∧ ip.b = 0 ∧ ip.c = 0 ∧ (ip.d = 170 ∨ ip.d = 171))
    ∨ (ip.a = 192 ∧ ip.b = 0 ∧ ip.c = 2)
    ∨ (ip.a = 192 ∧ ip.b = 168)
    ∨ (ip.a = 198 ∧ (ip.b = 18 ∨ ip.b = 19))
    ∨ (ip.a = 198 ∧ ip.b = 51 ∧ ip.c = 100)
    ∨ (ip.a = 203 ∧ ip.b = 0 ∧ ip.c = 113)
    ∨ 240 ≤ ip.a)

/-- Modelled from the spec words of the claim: the three listed private
ranges 10.0.0.0/8, 192.168.0.0/16 and 172.16.0.0/12. -/
def specPrivateRanges (ip : Ip) : Bool :=
  decide (ip.a = 10 ∨ (ip.a = 192 ∧ ip.b = 168) ∨ (ip.a = 172 ∧ 16 ≤ ip.b ∧ ip.b ≤ 31))

namespace LinodeAPIv4

/-- The classification loop of the v4 get_ips at source lines 866-875: walk
the raw address list in order, appending each address to the private or the
public accumulator according to is_private. -/
def get_ips_aux (pub priv : List Ip) : List Ip → List Ip × List Ip
  | [] => (pub, priv)
  | addr :: rest =>
      if is_private addr then get_ips_aux pub (priv ++ [addr]) rest
      else get_ips_aux (pub ++ [addr]) priv rest

/-- The v4 get_ips at source lines 864-875, applied to the ipv4 list of the
instance fetched by id (the fetch itself is a read-only GET and is elided
here); returns the pair (public, private). -/
def get_ips (ipv4 : List Ip) : List Ip × List Ip := get_ips_aux [] [] ipv4

end LinodeAPIv4

namespace LinodeAPIv3

/-- One record of the v3 ip.list response (source lines 1668-1677). -/
structure IpRecord where
  linodeid : Nat
  ispublic : Nat
  ipaddress : Ip
  deriving DecidableEq

/-- One step of the v3 get_ips grouping loop (source lines 1668-1677):
place the record into the per-node public or private list according to the
ISPUBLIC flag, creating the node entry on first sight.  The first entry
with a matching key is updated, mirroring dictionary update. -/
def addRecord : List (Nat × List Ip × List Ip) → IpRecord → List (Nat × List Ip × List Ip)
  | [], r =>
      [(r.linodeid, if r.ispublic = 1 then ([r.ipaddress], []) else ([], [r.ipaddress]))]
  | (k, pub, priv) :: rest, r =>
      if k = r.linodeid then
        (k, (if r.ispublic = 1 then pub ++ [r.ipaddress] else pub),
            (if r.ispublic = 1 then priv else priv ++ [r.ipaddress])) :: rest
      else (k, pub, priv) :: addRecord rest r

/-- The v3 get_ips at source lines 1653-1690, for the case where a
linode_id is given: group all records by node id, then select the lists of
the requested node, defaulting to empty lists when the node has no records
(source lines 1681-1688). -/
def get_ips (items : List IpRecord) (linode_id : Nat) : List Ip × List Ip :=
  let ret := items.foldl addRecord []
  match ret.find? (fun e => e.1 = linode_id) with
  | some e => (e.2.1, e.2.2)
  | none => ([], [])

/-- The public addresses the v3 grouping should assign to node k: the
records for k flagged public, in order. -/
def pubFilter (items : List IpRecord) (k : Nat) : List Ip :=
  (items.filter (fun r => r.linodeid = k ∧ r.ispublic = 1)).map (fun r => r.ipaddress)

/-- The private addresses the v3 grouping should assign to node k: the
records for k not flagged public, in order. -/
def privFilter (items : List IpRecord) (k : Nat) : List Ip :=
  (items.filter (fun r => r.linodeid = k ∧ ¬ r.ispublic = 1)).map (fun r => r.ipaddress)

end LinodeAPIv3

/-! ## Poller -/

namespace LinodeAPIv4

/-- The v4 wait loop at source lines 904-928.  The source computes
times = (timeout * 1000) / poll_interval (floating division, modelled as an
exact rational) and initializes curr = 1; each iteration probes, returns
the observation when the status matches, otherwise sleeps while
curr <= times and raises the timeout error once curr > times.  The source
never increments curr, and this embedding mirrors that: the recursive call
passes curr unchanged.  The n argument indexes the probe sequence; fuel
bounds the number of iterations modelled, with none meaning the loop is
still running after that many iterations.  On some (r, k), k is the number
of probes made. -/
def wait_for_entity_status (probe : Nat → String) (status : String) (times : Rat)
    (err : PyErr) (curr : Nat) : Nat → Nat → Option (Except PyErr String × Nat)
  | _, 0 => none
  | n, fuel + 1 =>
      if probe n = status then some (.ok status, n + 1)
      else if (curr : Rat) ≤ times then
        wait_for_entity_status probe status times err curr (n + 1) fuel
      else some (.error err, n + 1)

end LinodeAPIv4

namespace LinodeAPIv3

/-- The v3 job wait loop at source lines 1693-1724: iterations =
timeout / interval with interval = 5 (integer division, here the caller
passes the quotient); each iteration reads the first record of job.list,
modelled as jobs i = (JOBID, HOST_SUCCESS) for attempt i, returns True when
the job id matches with HOST_SUCCESS = 1, and after the final iteration
returns False (no exception is raised). -/
def wait_for_job (jobs : Nat → Nat × Nat) (job_id : Nat) : Nat → Nat → Bool
  | _, 0 => false
  | i, rem + 1 =>
      if (jobs i).1 = job_id ∧ (jobs i).2 = 1 then true
      else wait_for_job jobs job_id (i + 1) rem

end LinodeAPIv3

/-! ## Transport -/

namespace LinodeAPIv4

/-- The value a v4 query evaluates to.  excValue records the source defect
at lines 374-377: a constructed exception object returned as the ordinary
return value of the function. -/
inductive QueryValue where
  /-- The decoded JSON body (result.json(), line 380). -/
  | json (body : String)
  /-- The undecoded response object (DELETE path, line 382). -/
  | rawResponse (code : Nat) (body : String)
  /-- An exception object returned as a value (lines 374-377). -/
  | excValue (e : PyErr)
  deriving DecidableEq

/-- The observable outcome of the underlying requests.request call in the
v4 query: either the library raised HTTPError whose response body carries
the given error envelope fields, or a response came back with the given
HTTP status code and body.  (requests.request does not raise for a non-2xx
status on its own, and the source never calls raise_for_status, so a
non-2xx response arrives through the second constructor.) -/
inductive HttpOutcome where
  | httpError (errorField : Option String) (errorsField : Option (List String))
  | response (statusCode : Nat) (body : String)
  deriving DecidableEq

/-- The v4 query at source lines 338-382, error handling only (credential
injection and URL building carry no verification content).  On HTTPError
the source inspects the body: a single error field or an errors array makes
it RETURN a constructed SaltCloudSystemExit as a value; with neither field
present, control falls through to result.json() with result still None,
raising AttributeError (non-DELETE) or returning None (modelled as a raw
response of code 0).  A normal response is decoded and returned whatever
its status code. -/
def query (method : String) (out : HttpOutcome) : Except PyErr QueryValue :=
  let decode := !pyStrIs method "DELETE"
  match out with
  | .httpError errorField errorsField =>
      match errorField with
      | some e => .ok (.excValue (.saltCloudSystemExit ("Linode API reported error: " ++ e)))
      | none =>
          match errorsField with
          | some errs =>
              .ok (.excValue (.saltCloudSystemExit
                ("Linode API reported error(s): " ++ joinComma errs)))
          | none =>
              if decode then .error (.attributeError "NoneType object has no attribute json")
              else .ok (.rawResponse 0 "")
  | .response statusCode body =>
      if decode then .ok (.json body) else .ok (.rawResponse statusCode body)

end LinodeAPIv4

namespace LinodeAPIv3

/-- The decoded v3 response dictionary: the optional ERRORARRAY message
list (none when the key is absent) and the rest of the payload,
abstracted. -/
structure V3Dict where
  errorarray : Option (List String)
  payload : String
  deriving DecidableEq

/-- The error scan of the v3 query at source lines 1013-1024: walk the
message list in order; the message Authentication failed raises the
distinguished expired-key SaltCloudSystemExit at once, any other message is
collected, and after the walk the collected messages are joined into one
SaltCloudException. -/
def scan_error_list : List String → List String → PyErr
  | [], acc =>
      .saltCloudException ("Linode API reported error(s): " ++ joinComma acc.reverse)
  | m :: rest, acc =>
      if m = "Authentication failed" then
        .saltCloudSystemExit "Linode API Key is expired or invalid"
      else scan_error_list rest (m :: acc)

/-- The v3 query at source lines 958-1029, error handling only (rate-limit
pacing and parameter signing carry no verification content): when
ERRORARRAY is present and non-empty the scan above raises; otherwise the
decoded dictionary is returned. -/
def query (result : V3Dict) : Except PyErr V3Dict :=
  match result.errorarray with
  | some (m :: rest) => .error (scan_error_list (m :: rest) [])
  | _ => .ok result

end LinodeAPIv3

/-! ## Instance lookup dispatch (source lines 317-328, LinodeAPI.get_linode) -/

/-- How get_linode resolved the instance. -/
inductive Resolution where
  | byId (linode_id : Nat)
  | byName (name : String)
  deriving DecidableEq

/-- The base-class get_linode at source lines 317-328: a given linode_id is
resolved by id (a name, when also given, is ignored); failing that a given
name is resolved by name; with neither, a SaltCloudSystemExit naming the
two accepted parameters is raised before any remote call.  The trace shows
the remote calls of the v4 getters: by id a direct GET of the instance, by
name a GET of the full listing. -/
def get_linode (name : Option String) (linode_id : Option Nat) :
    Except PyErr Resolution × List Call :=
  match linode_id with
  | some i => (.ok (.byId i), [.getInstance i])
  | none =>
      match name with
      | some n => (.ok (.byName n), [.getInstances])
      | none => (.error (.requiresEitherOf "name" "linode_id"), [])

/-! ## v4 lifecycle actions and provisioning -/

namespace LinodeAPIv4

/-- The action result dictionaries returned by start and stop (source lines
777-792 and 799-815). -/
structure ActionResult where
  success : Bool
  action : String
  state : String
  msg : Option String
  deriving DecidableEq

/-- The v4 start at source lines 773-792: look the instance up by name (a
read-only GET of the listing); when its status is already running, return
the success dictionary without issuing any further call; otherwise POST
boot and block on the wait loop until the status is running.  probe gives
the status observed by the k-th wait probe; times and fuel parametrize the
wait loop as in wait_for_entity_status. -/
def start (inst_id : Nat) (inst_status : String) (probe : Nat → String)
    (times : Rat) (fuel : Nat) : Option (Except PyErr ActionResult × List Call) :=
  if inst_status = "running" then
    some (.ok ⟨true, "start", "Running", some "Machine already running"⟩, [.getInstances])
  else
    match wait_for_entity_status probe "running" times
        (.pollTimeout "linode" (toString inst_id) "running") 1 0 fuel with
    | none => none
    | some (.ok _, k) =>
        some (.ok ⟨true, "start", "Running", none⟩,
          [.getInstances, .postBoot inst_id] ++ List.replicate k (.getInstance inst_id))
    | some (.error e, k) =>
        some (.error e,
          [.getInstances, .postBoot inst_id] ++ List.replicate k (.getInstance inst_id))

/-- The v4 stop at source lines 795-815: the mirror image of start with the
offline status and the shutdown POST. -/
def stop (inst_id : Nat) (inst_status : String) (probe : Nat → String)
    (times : Rat) (fuel : Nat) : Option (Except PyErr ActionResult × List Call) :=
  if inst_status = "offline" then
    some (.ok ⟨true, "stop", "Stopped", some "Machine already stopped"⟩, [.getInstances])
  else
    match wait_for_entity_status probe "offline" times
        (.pollTimeout "linode" (toString inst_id) "offline") 1 0 fuel with
    | none => none
    | some (.ok _, k) =>
        some (.ok ⟨true, "stop", "Stopped", none⟩,
          [.getInstances, .postShutdown inst_id] ++ List.replicate k (.getInstance inst_id))
    | some (.error e, k) =>
        some (.error e,
          [.getInstances, .postShutdown inst_id] ++ List.replicate k (.getInstance inst_id))

/-- The devices payload a successful v4 create_config would POST (source
lines 487-496): sda the root disk, sdb the optional data disk, sdc the
swap disk. -/
structure ConfigPayload where
  label : String
  linode_id : Nat
  sda : Nat
  sdb : Option Nat
  sdc : Nat
  deriving DecidableEq

/-- The v4 create_config at source lines 467-496: with neither name nor
linode_id a SaltCloudSystemExit naming the two parameters is raised; then
each of name, linode_id, root_disk_id and swap_disk_id is required, a
missing one raising the missing-parameter SaltCloudSystemExit; with all
present the devices payload is POSTed. -/
def create_config (name : Option String) (linode_id root_disk_id swap_disk_id
    data_disk_id : Option Nat) : Except PyErr ConfigPayload :=
  if name = none ∧ linode_id = none then .error (.requiresEitherOf "name" "linode_id")
  else
    match name, linode_id, root_disk_id, swap_disk_id with
    | some nm, some lid, some rid, some sid =>
        .ok ⟨nm, lid, rid, data_disk_id, sid⟩
    | _, _, _, _ =>
        .error (.requiresParams ["name", "linode_id", "root_disk_id", "swap_disk_id"])

/-- The profile configuration values create reads (source lines 520-530);
field defaults applied by the configuration accessor are noted per field. -/
structure VmSpec where
  name : String
  /-- ssh_pubkey, no default. -/
  ssh_pubkey : Option String
  /-- ssh_interface, default public_ips. -/
  ssh_interface : String
  /-- assign_private_ip, default False. -/
  assign_private_ip : Bool
  /-- password, no default. -/
  password : Option String
  /-- swap, default 256. -/
  swap : Int
  /-- disk_size, no default (none selects implicit provisioning). -/
  disk_size : Option Int
  clonefrom : Option String
  size : Option String
  image : Option String
  deriving DecidableEq

/-- The clone-source fields create reads off the resolved instance (source
lines 537-542). -/
structure CloneSrc where
  id : Nat
  region : String
  ty : String
  deriving DecidableEq

/-- The remote responses create consumes. -/
structure Env where
  /-- Resolve a label to an instance for the clone lookup (none makes the
  by-name lookup raise SaltCloudNotFound). -/
  lookupByName : String → Option CloneSrc
  /-- The id field of the instance-creation or clone response. -/
  newId : Nat
  /-- The disk field of the type lookup response (instance_spec.get with
  default 0, source line 573). -/
  typeDisk : Int
  /-- The id field of the swap disk creation response. -/
  swapDiskId : Nat
  /-- The id field of the root disk creation response. -/
  rootDiskId : Nat
  /-- Status of the given disk at the given probe attempt. -/
  diskStatus : Nat → Nat → String
  /-- The times value of the wait loops (timeout times 1000 over the
  configured poll interval). -/
  times : Rat

/-- The outcome of a v4 create run.  The portion of the source function
after the boot call (address resolution, bootstrap hand-off, final events,
lines 606-652) is unreachable, because boot always raises a TypeError (see
bootStep below), so no success constructor is needed. -/
inductive CreateRes where
  /-- Name validation failed: the function returns the boolean False
  (source lines 502-503). -/
  | returnedFalse
  /-- An exception escaped. -/
  | err (e : PyErr)
  deriving DecidableEq

/-- The v4 create_disk helper at source lines 878-901: POST the disk, then
block on the wait loop until the disk status is ready; returns the disk id
from the creation response.  The trace is the POST followed by one disk GET
per wait probe. -/
def create_disk (env : Env) (linode_id disk_id : Nat) (size : Int)
    (filesystem : String) (image : Option String)
    (authorizedKeys : Option (List String)) (rootPass : Option String)
    (fuel : Nat) : Option (Except PyErr Nat × List Call) :=
  let post := Call.postCreateDisk linode_id size filesystem image authorizedKeys rootPass
  match wait_for_entity_status (env.diskStatus disk_id) "ready" env.times
      (.pollTimeout "instance disk" (toString linode_id ++ "/" ++ toString disk_id) "ready")
      1 0 fuel with
  | none => none
  | some (.ok _, k) => some (.ok disk_id, post :: List.replicate k (.getDisk linode_id disk_id))
  | some (.error e, k) => some (.error e, post :: List.replicate k (.getDisk linode_id disk_id))

/-- The boot step of create (source lines 604-606 calling boot at lines
409-432 with check_running False): boot resolves the instance by id (a
GET), skips the already-running check, and then calls the query method with
a body keyword argument; the query method has no such parameter (source
lines 338-345), so the call raises TypeError before any request is sent.
Everything after this point in create is therefore unreachable. -/
def bootStep (env : Env) (t : List Call) : Option (CreateRes × List Call) :=
  some (.err (.typeError "query got an unexpected keyword argument body"),
    t ++ [.getInstance env.newId])

/-- The v4 create at source lines 499-606.  Control flow in source order:
validate the name and return False on violation before any event or remote
call; fire the creating event; read the configuration values; branch on
clonefrom (resolve the source by name, POST a clone, optionally POST a
private address) versus fresh allocation (POST the instance, implicit
provisioning when no disk_size is configured); on the fresh explicit path,
look the type up, resolve the root size (a configured 0 falls back to
capacity minus swap), check capacity and root positivity, create the swap
disk when swap is non-zero (the source drops the returned handle: swap_disk
stays None), create the root disk seeded from image, key and password, and
call create_config with the root disk id passed as data_disk_id, no
root_disk_id, and swap_disk_id None — which makes create_config raise its
missing-parameter error.  (The kwargs literal at source lines 596-601 is
itself malformed Python — the element linode_id is a bare set item inside a
dict literal; it is modelled here as the evidently intended key-value
pair.)  All surviving paths then reach the boot step, which raises
TypeError. -/
def create (vm : VmSpec) (env : Env) (fuel : Nat) : Option (CreateRes × List Call) :=
  if validate_name vm.name = false then some (.returnedFalse, [])
  else
    let use_private_ip := pyStrIs vm.ssh_interface "private_ips"
    let assign_private_ip := vm.assign_private_ip || use_private_ip
    let swap_size := vm.swap
    let implicit_data_disk := vm.disk_size.isNone
    let ev : List Call := [.fireEvent "creating"]
    match vm.clonefrom with
    | some clonefrom_name =>
        match env.lookupByName clonefrom_name with
        | none => some (.err (.notFound clonefrom_name), ev ++ [.getInstances])
        | some src =>
            let t1 := ev ++ [.getInstances, .postClone src.id src.region src.ty]
            let t2 := if assign_private_ip then t1 ++ [.postPrivateIp env.newId] else t1
            bootStep env t2
    | none =>
        let t1 := ev ++ [.postCreateInstance implicit_data_disk]
        match vm.disk_size with
        | none => bootStep env t1
        | some requested =>
            let t2 := t1 ++ [.getTypeInfo vm.size]
            let disk_size := env.typeDisk
            let root_disk_size : Int :=
              if requested = 0 then disk_size - swap_size else requested
            if root_disk_size + swap_size > disk_size then
              some (.err (.insufficientSpace vm.size disk_size), t2)
            else if root_disk_size ≤ 0 then
              some (.err .rootDiskUnallocated, t2)
            else
              let swapRun : Option (Except PyErr (Option Nat) × List Call) :=
                if swap_size ≠ 0 then
                  match create_disk env env.newId env.swapDiskId swap_size "swap"
                      none none none fuel with
                  | none => none
                  | some (.ok _, tc) => some (.ok none, tc)
                  | some (.error e, tc) => some (.error e, tc)
                else some (.ok none, [])
              match swapRun with
              | none => none
              | some (.error e, tc) => some (.err e, t2 ++ tc)
              | some (.ok swap_disk, tc) =>
                  match create_disk env env.newId env.rootDiskId root_disk_size "ext4"
                      vm.image (some [vm.ssh_pubkey.getD ""]) vm.password fuel with
                  | none => none
                  | some (.error e, td) => some (.err e, t2 ++ tc ++ td)
                  | some (.ok data_disk, td) =>
                      match create_config (some "Default Config") (some env.newId)
                          none swap_disk (some data_disk) with
                      | .error e => some (.err e, t2 ++ tc ++ td)
                      | .ok _ =>
                          bootStep env (t2 ++ tc ++ td ++ [.postCreateConfig env.newId])

/-- Whether create reads the configuration as requesting the private
interface for SSH (source line 522): only the identity comparison of
ssh_interface against the literal private_ips; the assign_private_ip
request does not enter into it. -/
def use_private_ip_of (vm : VmSpec) : Bool := pyStrIs vm.ssh_interface "private_ips"

/-- The SSH target selection of create at source lines 620-623 (were it
reachable): the head of the private list when use_private_ip is set, else
the head of the public list; indexing an empty list raises IndexError. -/
def sshHostSelect (vm : VmSpec) (public_ips private_ips : List Ip) : Except PyErr Ip :=
  if use_private_ip_of vm then
    match private_ips with
    | [] => .error .indexError
    | a :: _ => .ok a
  else
    match public_ips with
    | [] => .error .indexError
    | a :: _ => .ok a

end LinodeAPIv4

/-! ## Concrete fixtures used by the claim theorems and witnesses -/

/-- A provider environment for the create runs: instance id 13, a size
class with 25600 MB of disk, disk ids 101 (swap) and 102 (root), disks
immediately ready, default wait parameters (times = 120 * 1000 / 500). -/
def envFix : LinodeAPIv4.Env := ⟨fun _ => none, 13, 25600, 101, 102, fun _ _ => "ready", 240⟩

/-- The explicit-provisioning profile of the end-to-end scenario: disk_size
20000, swap 256, on the 25600 MB class. -/
def vmExplicit : LinodeAPIv4.VmSpec :=
  ⟨"web-01", some "sshkey", "public_ips", false, some "hunter2", 256, some 20000,
    none, some "g6-standard-1", some "linode/centos7"⟩

/-- The capacity-violation profile: disk_size 26000 on the 25600 MB class. -/
def vmOversize : LinodeAPIv4.VmSpec :=
  ⟨"web-01", some "sshkey", "public_ips", false, some "hunter2", 256, some 26000,
    none, some "g6-standard-1", some "linode/centos7"⟩

/-- A profile whose resolved root size is zero: configured disk_size 0
falls back to capacity minus swap, with swap set to the full capacity. -/
def vmZeroRoot : LinodeAPIv4.VmSpec :=
  ⟨"web-01", some "sshkey", "public_ips", false, some "hunter2", 25600, some 0,
    none, some "g6-standard-1", some "linode/centos7"⟩

/-- An implicit-provisioning profile that requests private address
assignment but keeps the default public SSH interface. -/
def vmPrivateReq : LinodeAPIv4.VmSpec :=
  ⟨"web-03", some "sshkey", "public_ips", true, some "hunter2", 256, none,
    none, some "g6-standard-1", some "linode/centos7"⟩

/-- A profile with an invalid name (too short and with a forbidden
character). -/
def vmBadName : LinodeAPIv4.VmSpec :=
  ⟨"a!", none, "public_ips", false, none, 256, none, none, none, none⟩

/-- An implicit-provisioning profile whose name carries a trailing newline:
rejected by the claim rule set, accepted by the source validator because
the Python dollar matches before a terminating newline. -/
def vmNewline : LinodeAPIv4.VmSpec :=
  ⟨"web-01\n", some "sshkey", "public_ips", false, some "hunter2", 256, none,
    none, some "g6-standard-1", some "linode/centos7"⟩

/-- A small raw address list with one private and one public address. -/
def ipSample : List Ip := [⟨10, 1, 2, 3⟩, ⟨97, 0, 0, 1⟩]

/-! ## Helper lemmas -/

/-- The v4 wait loop makes no progress towards its timeout branch: when the
probe never reports the target status and the counter value (which the
source never changes) is within the bound, the loop neither returns nor
raises, whatever fuel it is given. -/
theorem wait_for_entity_status_spins (probe : Nat → String) (status : String)
    (times : Rat) (err : PyErr) (curr : Nat)
    (h1 : ∀ n, probe n ≠ status) (h2 : (curr : Rat) ≤ times) :
    ∀ fuel n, LinodeAPIv4.wait_for_entity_status probe status times err curr n fuel = none := by
  intro fuel
  induction fuel with
  | zero => intro n; rfl
  | succ k ih =>
      intro n
      simp [LinodeAPIv4.wait_for_entity_status, h1 n, h2, ih]

/-- The v3 job wait returns False when no probe ever observes the job
succeeding, for any iteration budget. -/
theorem wait_for_job_exhausts (jobs : Nat → Nat × Nat) (job_id : Nat)
    (h : ∀ i, ¬((jobs i).1 = job_id ∧ (jobs i).2 = 1)) :
    ∀ rem i, LinodeAPIv3.wait_for_job jobs job_id i rem = false := by
  intro rem
  induction rem with
  | zero => intro i; rfl
  | succ k ih =>
      intro i
      simp only [LinodeAPIv3.wait_for_job, ih]
      simp [h i]

/-- The source validator agrees with the amended rule set: length between
3 and 48 and a match of the regex under Python dollar-anchor semantics. -/
theorem validate_name_eq_specPy (name : String) :
    validate_name name = specNameRulesPy name := by
  unfold validate_name specNameRulesPy
  by_cases h1 : name.length < 3
  · have h3 : ¬ 3 ≤ name.length := by omega
    simp [h1, h3]
  · by_cases h2 : 48 < name.length
    · have h4 : ¬ name.length ≤ 48 := by omega
      simp [h1, h2, h4]
    · have h5 : 3 ≤ name.length := by omega
      have h6 : name.length ≤ 48 := by omega
      simp [h1, h2, h5, h6]

/-- The v4 classification loop is the pair of filters over the raw list:
public keeps the addresses not classified private, private keeps the
classified ones, both in raw order, prefixed by the accumulators. -/
theorem get_ips_aux_eq (l : List Ip) : ∀ pub priv,
    LinodeAPIv4.get_ips_aux pub priv l =
      (pub ++ l.filter (fun a => !is_private a), priv ++ l.filter (fun a => is_private a)) := by
  induction l with
  | nil => intro pub priv; simp [LinodeAPIv4.get_ips_aux]
  | cons a rest ih =>
      intro pub priv
      by_cases h : is_private a = true
      · simp [LinodeAPIv4.get_ips_aux, h, ih, List.filter_cons]
      · simp [LinodeAPIv4.get_ips_aux, h, ih, List.filter_cons]

/-- The v4 get_ips is the pair of filters over the raw list. -/
theorem get_ips_filter_eq (l : List Ip) :
    LinodeAPIv4.get_ips l =
      (l.filter (fun a => !is_private a), l.filter (fun a => is_private a)) := by
  simpa [LinodeAPIv4.get_ips] using get_ips_aux_eq l [] []

namespace LinodeAPIv3

/-- Accessor for the grouped per-node lists built by the v3 loop: the entry
of the first matching key, defaulting to empty lists. -/
def lkp (ret : List (Nat × List Ip × List Ip)) (k : Nat) : List Ip × List Ip :=
  match ret.find? (fun e => e.1 = k) with
  | some e => e.2
  | none => ([], [])

/-- Looking a key up past a non-matching head entry skips it. -/
theorem lkp_cons_ne (k1 : Nat) (x : List Ip × List Ip)
    (l : List (Nat × List Ip × List Ip)) (k : Nat) (h : ¬ k1 = k) :
    lkp ((k1, x) :: l) k = lkp l k := by
  simp [lkp, List.find?_cons, h]

/-- Looking a key up at a matching head entry returns that entry. -/
theorem lkp_cons_eq (k1 : Nat) (x : List Ip × List Ip)
    (l : List (Nat × List Ip × List Ip)) (k : Nat) (h : k1 = k) :
    lkp ((k1, x) :: l) k = x := by
  simp [lkp, List.find?_cons, h]

/-- One grouping step appends the record address to the matching node
lists and leaves every other node unchanged. -/
theorem lkp_addRecord (r : IpRecord) (k : Nat) : ∀ ret,
    lkp (addRecord ret r) k =
      if k = r.linodeid then
        ((lkp ret k).1 ++ (if r.ispublic = 1 then [r.ipaddress] else []),
         (lkp ret k).2 ++ (if r.ispublic = 1 then [] else [r.ipaddress]))
      else lkp ret k := by
  intro ret
  induction ret with
  | nil =>
      by_cases hk : k = r.linodeid
      · subst hk
        by_cases hp : r.ispublic = 1 <;> simp [addRecord, lkp, hp]
      · have hk2 : ¬ r.linodeid = k := fun h => hk h.symm
        simp [addRecord, lkp, hk, hk2]
  | cons hd tl ih =>
      obtain ⟨k1, pu, pr⟩ := hd
      by_cases h1 : k1 = r.linodeid
      · rw [show addRecord ((k1, pu, pr) :: tl) r =
            (k1, (if r.ispublic = 1 then pu ++ [r.ipaddress] else pu),
              (if r.ispublic = 1 then pr else pr ++ [r.ipaddress])) :: tl from by
          simp [addRecord, h1]]
        by_cases hk : k1 = k
        · have hkr : k = r.linodeid := hk ▸ h1
          rw [lkp_cons_eq _ _ _ _ hk, lkp_cons_eq _ _ _ _ hk, if_pos hkr]
          by_cases hp : r.ispublic = 1 <;> simp [hp]
        · have hkr : ¬ k = r.linodeid := fun h => hk (h1.trans h.symm)
          rw [lkp_cons_ne _ _ _ _ hk, lkp_cons_ne _ _ _ _ hk, if_neg hkr]
      · rw [show addRecord ((k1, pu, pr) :: tl) r = (k1, pu, pr) :: addRecord tl r from by
          simp [addRecord, h1]]
        by_cases hk : k1 = k
        · have hkr : ¬ k = r.linodeid := fun h => h1 (hk.trans h)
          rw [lkp_cons_eq _ _ _ _ hk, lkp_cons_eq _ _ _ _ hk, if_neg hkr]
        · rw [lkp_cons_ne _ _ _ _ hk, lkp_cons_ne _ _ _ _ hk, ih]

/-- Folding the grouping step over a record list appends exactly the
per-node public and private projections. -/
theorem lkp_foldl (items : List IpRecord) : ∀ ret k,
    lkp (items.foldl addRecord ret) k =
      ((lkp ret k).1 ++ pubFilter items k, (lkp ret k).2 ++ privFilter items k) := by
  induction items with
  | nil => intro ret k; simp [pubFilter, privFilter]
  | cons r rest ih =>
      intro ret k
      rw [List.foldl_cons, ih, lkp_addRecord]
      by_cases hk : k = r.linodeid
      · subst hk
        by_cases hp : r.ispublic = 1 <;>
          simp [pubFilter, privFilter, List.filter_cons, hp, List.append_assoc]
      · have hk2 : ¬ r.linodeid = k := fun h => hk h.symm
        simp [pubFilter, privFilter, List.filter_cons, hk, hk2]

/-- The v3 get_ips returns exactly the per-node public and private
projections of the record list. -/
theorem get_ips_grouping_eq (items : List IpRecord) (lid : Nat) :
    get_ips items lid = (pubFilter items lid, privFilter items lid) := by
  have h := lkp_foldl items [] lid
  have h0 : get_ips items lid = lkp (items.foldl addRecord []) lid := by
    unfold get_ips lkp
    cases hf : (items.foldl addRecord []).find? (fun e => e.1 = lid) with
    | none => simp [hf]
    | some e => simp [hf]
  rw [h0, h]
  simp [lkp]

/-- The two v3 projections together are a permutation of the addresses of
the records for the node. -/
theorem partition_perm (items : List IpRecord) (lid : Nat) :
    (pubFilter items lid ++ privFilter items lid).Perm
      ((items.filter (fun r => r.linodeid = lid)).map (fun r => r.ipaddress)) := by
  induction items with
  | nil => simp [pubFilter, privFilter]
  | cons r rest ih =>
      by_cases hl : r.linodeid = lid
      · by_cases hp : r.ispublic = 1
        · simpa [pubFilter, privFilter, List.filter_cons, hl, hp] using ih.cons r.ipaddress
        · have step :
              (pubFilter rest lid ++ r.ipaddress :: privFilter rest lid).Perm
                (r.ipaddress :: (pubFilter rest lid ++ privFilter rest lid)) :=
            List.perm_middle
          simpa [pubFilter, privFilter, List.filter_cons, hl, hp] using
            step.trans (ih.cons r.ipaddress)
      · simpa [pubFilter, privFilter, List.filter_cons, hl] using ih

end LinodeAPIv3

/-! ## Claim theorems -/

/-- C1: the claim says both wait loops terminate after about
timeout / pollInterval probes and then raise a typed poll-timeout error.
The code does not do this: with the default parameters (times = 240) and a
probe that never reports the target status, the v4 loop runs forever,
because the attempt counter curr is initialized to 1 and never incremented,
so the guard curr <= times always holds and the timeout branch is
unreachable (first conjunct: no amount of fuel makes the loop return or
raise).  The v3 job loop does terminate, but on exhaustion it returns the
boolean False rather than raising a typed error (second conjunct). -/
theorem claim1_poller_termination :
    (∀ fuel n : Nat,
        LinodeAPIv4.wait_for_entity_status (fun _ => "provisioning") "running" 240
          (.pollTimeout "linode" "123" "running") 1 n fuel = none)
  ∧ (∀ iterations i : Nat,
        LinodeAPIv3.wait_for_job (fun _ => (7, 0)) 9 i iterations = false) := by
  constructor
  · intro fuel n
    exact wait_for_entity_status_spins _ _ _ _ _ (fun _ => by decide) (by norm_num) fuel n
  · intro iterations i
    exact wait_for_job_exhausts _ _ (fun _ => by decide) iterations i

/-- C2 counterexample: the name with a trailing newline violates the claim
rule set (it does not match the regex read as a whole-string match, its
last character not being alphanumeric), so the claim says create returns
False before any remote call; but the source regex match succeeds — the
Python dollar matches before the terminating newline — so the validator
returns True and create proceeds: it fires the creating event and issues
the instance-creation POST (a remote call), ending in the boot TypeError
rather than returning False. -/
theorem claim2_name_validation_counterexample :
    validate_name "web-01\n" = true
  ∧ specNameRules "web-01\n" = false
  ∧ LinodeAPIv4.create vmNewline envFix 5 =
      some (.err (.typeError "query got an unexpected keyword argument body"),
        [.fireEvent "creating", .postCreateInstance true, .getInstance 13])
  ∧ LinodeAPIv4.create vmNewline envFix 5 ≠ some (.returnedFalse, []) := by
  decide

/-- C2 amended: a name rejected by the source validator makes the v4
create return the boolean False with an empty call trace — before any
event emission or remote call; the validator coincides with the claim rule
set taken under Python dollar-anchor semantics (length 3 to 48 and the
regex also accepting one trailing newline); and every name satisfying the
claim rule set as originally stated (strict whole-string match) still
validates as True. -/
theorem claim2_name_validation (name : String) (vm : LinodeAPIv4.VmSpec)
    (env : LinodeAPIv4.Env) (fuel : Nat) :
    (validate_name vm.name = false →
        LinodeAPIv4.create vm env fuel = some (.returnedFalse, []))
  ∧ validate_name name = specNameRulesPy name
  ∧ (specNameRules name = true → validate_name name = true) := by
  refine ⟨?_, validate_name_eq_specPy name, ?_⟩
  · intro h
    unfold LinodeAPIv4.create
    rw [if_pos h]
  · intro h
    simp only [specNameRules, Bool.and_eq_true] at h
    rw [validate_name_eq_specPy name]
    simp [specNameRulesPy, nameRegexPyMatch, h.1, h.2]
    exact of_decide_eq_true h.1

/-- Witness for C2 amended: the invalid name a! makes create return False
with no calls, the validator agrees with the Python-semantics rules on
web-01, and web-01 (which satisfies the strict rules) validates as True. -/
theorem claim2_name_validation_witness :
    LinodeAPIv4.create vmBadName envFix 5 = some (.returnedFalse, [])
  ∧ validate_name "web-01" = specNameRulesPy "web-01"
  ∧ validate_name "web-01" = true :=
  ⟨(claim2_name_validation "web-01" vmBadName envFix 5).1 (by decide),
   (claim2_name_validation "web-01" vmBadName envFix 5).2.1,
   (claim2_name_validation "web-01" vmBadName envFix 5).2.2 (by decide)⟩

/-- C5: the claim says the transport raises on error envelopes and non-2xx
responses.  The v4 query instead RETURNS the constructed exception as its
value on an HTTPError carrying an errors array (first conjunct: the result
is an ok value, not an error), and returns the decoded body of a non-2xx
response as a normal value without inspecting the status code (second
conjunct).  The v3 query conforms: a non-empty ERRORARRAY raises the joined
message list (third conjunct), and an authentication failure raises the
distinguished expired-key exit (fourth conjunct). -/
theorem claim5_transport_error_channel :
    LinodeAPIv4.query "GET" (.httpError none (some ["boom", "bang"])) =
      .ok (.excValue (.saltCloudSystemExit "Linode API reported error(s): boom, bang"))
  ∧ LinodeAPIv4.query "GET" (.response 500 "errbody") = .ok (.json "errbody")
  ∧ LinodeAPIv3.query ⟨some ["m1", "m2"], "x"⟩ =
      .error (.saltCloudException "Linode API reported error(s): m1, m2")
  ∧ LinodeAPIv3.query ⟨some ["m1", "Authentication failed"], "x"⟩ =
      .error (.saltCloudSystemExit "Linode API Key is expired or invalid") :=
  ⟨by decide, by decide, by decide, by decide⟩

/-- C6: the v3 status mapping is total on integer status ids: an id
carried by a table entry maps to that entry status description, and an id
outside the table maps to none (the unknown marker — the source falls back
to a string-keyed dictionary get that never matches an integer), never
raising. -/
theorem claim6_status_mapping_total (id : Int) :
    (∀ e, e ∈ LINODE_STATUS → e.code = id →
        get_status_descr_by_id id = some e.descr)
  ∧ ((∀ e, e ∈ LINODE_STATUS → e.code ≠ id) → get_status_descr_by_id id = none) := by
  constructor
  · intro e he hc
    subst hc
    fin_cases he <;> rfl
  · intro h
    have hf : LINODE_STATUS.find? (fun e => e.code = id) = none := by
      rw [List.find?_eq_none]
      intro e he
      simpa using h e he
    simp [get_status_descr_by_id, hf]

/-- Witness for C6: code 1 maps to Running, code 99 maps to none. -/
theorem claim6_status_mapping_total_witness :
    get_status_descr_by_id 1 = some "Running" ∧ get_status_descr_by_id 99 = none :=
  ⟨(claim6_status_mapping_total 1).1 ⟨"running", 1, "Running"⟩ (by decide) rfl,
   (claim6_status_mapping_total 99).2 (by decide)⟩

/-- C7: the v4 start on an instance whose status is already running
returns the success dictionary immediately; the only recorded call is the
read-only name lookup, and no state-changing call is issued.  Likewise
stop on an instance already offline. -/
theorem claim7_idempotent_noops (inst_id : Nat) (st : String) (probe : Nat → String)
    (times : Rat) (fuel : Nat) :
    (st = "running" →
        LinodeAPIv4.start inst_id st probe times fuel =
          some (.ok ⟨true, "start", "Running", some "Machine already running"⟩, [.getInstances])
      ∧ ∀ c ∈ [Call.getInstances], stateChanging c = false)
  ∧ (st = "offline" →
        LinodeAPIv4.stop inst_id st probe times fuel =
          some (.ok ⟨true, "stop", "Stopped", some "Machine already stopped"⟩, [.getInstances])
      ∧ ∀ c ∈ [Call.getInstances], stateChanging c = false) := by
  constructor
  · intro h
    subst h
    exact ⟨rfl, by decide⟩
  · intro h
    subst h
    exact ⟨rfl, by decide⟩

/-- Witness for C7 on instance 44. -/
theorem claim7_idempotent_noops_witness :
    (LinodeAPIv4.start 44 "running" (fun _ => "offline") 240 3 =
        some (.ok ⟨true, "start", "Running", some "Machine already running"⟩, [.getInstances])
      ∧ ∀ c ∈ [Call.getInstances], stateChanging c = false)
  ∧ (LinodeAPIv4.stop 44 "offline" (fun _ => "offline") 240 3 =
        some (.ok ⟨true, "stop", "Stopped", some "Machine already stopped"⟩, [.getInstances])
      ∧ ∀ c ∈ [Call.getInstances], stateChanging c = false) :=
  ⟨(claim7_idempotent_noops 44 "running" (fun _ => "offline") 240 3).1 rfl,
   (claim7_idempotent_noops 44 "offline" (fun _ => "offline") 240 3).2 rfl⟩

/-- C10: get_linode resolves by id whenever a linode_id is supplied (a
name, when also supplied, is ignored), resolves by name when only a name is
supplied, and with neither raises the error naming the two accepted
parameters without issuing any call. -/
theorem claim10_get_linode_dispatch (n : String) (i : Nat) :
    get_linode (some n) (some i) = (.ok (.byId i), [.getInstance i])
  ∧ get_linode none (some i) = (.ok (.byId i), [.getInstance i])
  ∧ get_linode (some n) none = (.ok (.byName n), [.getInstances])
  ∧ get_linode none none = (.error (.requiresEitherOf "name" "linode_id"), []) :=
  ⟨rfl, rfl, rfl, rfl⟩

/-- C3: the claim says the explicit-provisioning create makes the swap
disk, then the root disk, then one config profile referencing both created
disk ids.  The code creates the swap disk first and the root disk second
(seeded from image, key and password, as the trace shows), but it discards
the swap-disk handle (swap_disk is never assigned), passes the root disk id
as data_disk_id, and passes no root_disk_id at all, so create_config raises
its missing-parameter error: the run ends in that error and the trace
contains no config-creation call. -/
theorem claim3_explicit_disk_config_sequence :
    LinodeAPIv4.create vmExplicit envFix 5 =
      some (.err (.requiresParams ["name", "linode_id", "root_disk_id", "swap_disk_id"]),
        [.fireEvent "creating", .postCreateInstance false, .getTypeInfo (some "g6-standard-1"),
         .postCreateDisk 13 256 "swap" none none none, .getDisk 13 101,
         .postCreateDisk 13 20000 "ext4" (some "linode/centos7") (some ["sshkey"]) (some "hunter2"),
         .getDisk 13 102]) := by
  decide

/-- C4 counterexample: at a configuration whose resolved root size is
non-positive (swap fills the class capacity and disk_size 0 resolves to
capacity minus swap), create raises the bare root-disk error, which names
neither the size class nor the total capacity, while the claim as stated
expects an insufficient-capacity error naming both. -/
theorem claim4_capacity_validation_counterexample :
    LinodeAPIv4.create vmZeroRoot envFix 5 =
      some (.err .rootDiskUnallocated,
        [.fireEvent "creating", .postCreateInstance false, .getTypeInfo (some "g6-standard-1")])
  ∧ PyErr.rootDiskUnallocated ≠ PyErr.insufficientSpace (some "g6-standard-1") 25600 := by
  decide

/-- C4 amended: on the fresh explicit-provisioning path, when the resolved
root size plus swap exceeds the class capacity, create raises the
insufficient-space error naming the size class and the total capacity, with
no disk-creation call in the trace (the trace ends at the type lookup);
when instead the resolved root size is non-positive, create raises the
root-disk-unallocated error (which names neither), likewise before any
disk-creation call. -/
theorem claim4_capacity_validation (vm : LinodeAPIv4.VmSpec) (env : LinodeAPIv4.Env)
    (fuel : Nat) (r : Int)
    (hname : validate_name vm.name = true)
    (hclone : vm.clonefrom = none)
    (hdisk : vm.disk_size = some r) :
    ((if r = 0 then env.typeDisk - vm.swap else r) + vm.swap > env.typeDisk →
        LinodeAPIv4.create vm env fuel =
          some (.err (.insufficientSpace vm.size env.typeDisk),
            [.fireEvent "creating", .postCreateInstance false, .getTypeInfo vm.size]))
  ∧ ((if r = 0 then env.typeDisk - vm.swap else r) + vm.swap ≤ env.typeDisk →
      (if r = 0 then env.typeDisk - vm.swap else r) ≤ 0 →
        LinodeAPIv4.create vm env fuel =
          some (.err .rootDiskUnallocated,
            [.fireEvent "creating", .postCreateInstance false, .getTypeInfo vm.size])) := by
  have hv : ¬ validate_name vm.name = false := by simp [hname]
  constructor
  · intro h
    unfold LinodeAPIv4.create
    rw [if_neg hv, hclone, hdisk]
    simp only [Option.isNone_some]
    rw [if_pos h]
    simp
  · intro h h2
    unfold LinodeAPIv4.create
    rw [if_neg hv, hclone, hdisk]
    simp only [Option.isNone_some]
    rw [if_neg (not_lt.mpr h), if_pos h2]
    simp

/-- Witness for C4 amended: disk_size 26000 on the 25600 MB class raises
the capacity error naming the class and capacity; swap 25600 with disk_size
0 raises the root-disk error; both traces end at the type lookup. -/
theorem claim4_capacity_validation_witness :
    LinodeAPIv4.create vmOversize envFix 5 =
      some (.err (.insufficientSpace (some "g6-standard-1") 25600),
        [.fireEvent "creating", .postCreateInstance false, .getTypeInfo (some "g6-standard-1")])
  ∧ LinodeAPIv4.create vmZeroRoot envFix 5 =
      some (.err .rootDiskUnallocated,
        [.fireEvent "creating", .postCreateInstance false, .getTypeInfo (some "g6-standard-1")]) :=
  ⟨(claim4_capacity_validation vmOversize envFix 5 26000 (by decide) rfl rfl).1 (by decide),
   (claim4_capacity_validation vmZeroRoot envFix 5 0 (by decide) rfl rfl).2
     (by decide) (by decide)⟩

/-- C8 counterexample: the loopback address 127.0.0.1 lies outside the
three ranges the claim lists (so the claim classifies it Public), yet the
code classifies it private: the v4 get_ips places it in the private
component. -/
theorem claim8_address_partition_counterexample :
    is_private ⟨127, 0, 0, 1⟩ = true
  ∧ specPrivateRanges ⟨127, 0, 0, 1⟩ = false
  ∧ LinodeAPIv4.get_ips [⟨127, 0, 0, 1⟩] = ([], [⟨127, 0, 0, 1⟩]) := by
  decide

/-- C8 amended: the v4 classification is by the full CPython is_private
test — every address in the three claimed ranges is classified Private
(first conjunct), but so are loopback, link-local and the other special
ranges; the public and private components are exactly the filters of the
raw list by that test, so together they hold every raw address exactly once
with no overlap (perm and membership conjuncts).  The v3 get_ips does not
inspect addresses at all: it partitions the instance records by the
provider ISPUBLIC flag, and that partition likewise covers the records of
the requested node exactly once. -/
theorem claim8_address_partition (l : List Ip)
    (items : List LinodeAPIv3.IpRecord) (lid : Nat) :
    (∀ a : Ip, specPrivateRanges a = true → is_private a = true)
  ∧ LinodeAPIv4.get_ips l =
      (l.filter (fun a => !is_private a), l.filter (fun a => is_private a))
  ∧ ((LinodeAPIv4.get_ips l).1 ++ (LinodeAPIv4.get_ips l).2).Perm l
  ∧ (∀ a, a ∈ (LinodeAPIv4.get_ips l).1 → is_private a = false)
  ∧ (∀ a, a ∈ (LinodeAPIv4.get_ips l).2 → is_private a = true)
  ∧ LinodeAPIv3.get_ips items lid =
      (LinodeAPIv3.pubFilter items lid, LinodeAPIv3.privFilter items lid)
  ∧ ((LinodeAPIv3.get_ips items lid).1 ++ (LinodeAPIv3.get_ips items lid).2).Perm
      ((items.filter (fun r => r.linodeid = lid)).map (fun r => r.ipaddress)) := by
  refine ⟨?_, get_ips_filter_eq l, ?_, ?_, ?_, LinodeAPIv3.get_ips_grouping_eq items lid, ?_⟩
  · intro a h
    simp only [specPrivateRanges, decide_eq_true_eq] at h
    simp only [is_private, decide_eq_true_eq]
    tauto
  · rw [get_ips_filter_eq]
    have hp := List.filter_append_perm (fun a => !is_private a) l
    simpa [Bool.not_not] using hp
  · rw [get_ips_filter_eq]
    intro a ha
    have := (List.mem_filter.mp ha).2
    simpa using this
  · rw [get_ips_filter_eq]
    intro a ha
    exact (List.mem_filter.mp ha).2
  · rw [LinodeAPIv3.get_ips_grouping_eq]
    exact LinodeAPIv3.partition_perm items lid

/-- Witness for C8 amended: a 10.0.0.0/8 address classifies private, and
the sample list splits into its two filters. -/
theorem claim8_address_partition_witness :
    is_private ⟨10, 1, 2, 3⟩ = true
  ∧ LinodeAPIv4.get_ips ipSample =
      (ipSample.filter (fun a => !is_private a), ipSample.filter (fun a => is_private a)) :=
  ⟨(claim8_address_partition ipSample [] 0).1 ⟨10, 1, 2, 3⟩ (by decide),
   (claim8_address_partition ipSample [] 0).2.1⟩

/-- C9: the claim says create selects the first private address as the SSH
target whenever private access was requested explicitly (ssh_interface) or
implicitly (private-IP assignment), else the first public address.  The
code never reaches the selection: on the implicit-provisioning path with
private-IP assignment requested, create raises a TypeError inside boot (the
unsupported body keyword passed to the query method) right after the
instance creation POST and the boot-path instance GET, so no address is
resolved and no SSH target is set (first conjunct).  Moreover the selection
expression itself keys only on ssh_interface: with assign_private_ip
requested but ssh_interface left public, use_private_ip is false and the
selection (taken in isolation) would pick the first public address, not the
first private one (remaining conjuncts). -/
theorem claim9_ssh_target_selection :
    LinodeAPIv4.create vmPrivateReq envFix 5 =
      some (.err (.typeError "query got an unexpected keyword argument body"),
        [.fireEvent "creating", .postCreateInstance true, .getInstance 13])
  ∧ vmPrivateReq.assign_private_ip = true
  ∧ LinodeAPIv4.use_private_ip_of vmPrivateReq = false
  ∧ LinodeAPIv4.sshHostSelect vmPrivateReq [⟨97, 1, 2, 3⟩] [⟨10, 0, 0, 5⟩] =
      .ok ⟨97, 1, 2, 3⟩ := by
  decide

end LinodeCloud
